import Mathlib

/-
Verification of the 3dXMMP audio player core (src/source/player.c and
src/source/main.c) against its design specification.

The mutable file-scope state of the two C translation units is embedded as an
explicit PlayerState record; every C function becomes a Lean function from
state to state.  External libraries (tremor/vorbisfile and libctru NDSP) are
parametrized: the value returned by ov_read, the success of
ov_open_callbacks and the number of header bytes it pulls through the read
callback are oracle inputs, and the externally visible calls made by the code
are recorded as an event trace.  Machine integers are modelled as Nat/Int
with explicit reductions where wraparound matters.  The program is 3DS
homebrew (3ds.h, NDSP, devkitARM), a 32-bit ARM ILP32 target: size_t and
unsigned int are 32 bits, long long (ogg_int64_t) is 64 bits; the cursor
arithmetic of mem_read_func and mem_seek_func therefore wraps mod 2^32,
while the SEEK_CUR comparison is performed in signed 64-bit arithmetic
after the usual conversions.  Out-of-bounds memory accesses and the other
undefined behaviors the code can reach are modelled as none.
-/

namespace XMMP

/-- A registry entry from player.c: the raw OGG bytes, the stored byte length
(the `size` field, a C `unsigned int`, 32-bit on the 3DS target), and the
in-place read cursor (`offset`, a 32-bit `size_t`) used by the vorbisfile
callbacks.  The fields hold the values of those machine words, so size and
offset are below 2^32; the initialization and the in-bounds cursor
operations additionally keep `offset ≤ size`. -/
structure Track where
  data : List Nat
  size : Nat
  offset : Nat
deriving DecidableEq

/-- The size_t modulus of the 32-bit 3DS target: 2^32. -/
def SZMOD : Nat := 4294967296

/-- The local variable bytes_to_read of mem_read_func after its clamping
branch, in 32-bit size_t arithmetic: the request size*nmemb truncates
mod 2^32, the comparison adds offset and the request mod 2^32 (so a large
request can wrap past the size check), and the clamp value size - offset is
the wrapped unsigned difference. -/
def bytesToRead (sz nmemb : Nat) (track : Track) : Nat :=
  if (track.offset + sz * nmemb % SZMOD) % SZMOD > track.size then
    (SZMOD + track.size - track.offset) % SZMOD
  else sz * nmemb % SZMOD

/-- mem_read_func from player.c on the 32-bit target: computes bytes_to_read
as above, then memcpy-s that many bytes from data + offset — when the
wrapped comparison has skipped the clamp this reads past the end of the
asset, undefined behavior, modelled as none — advances the cursor by
bytes_to_read mod 2^32 and returns bytes_to_read / size whole items.
Result on the defined path: (bytes copied out, updated track, return
value). -/
def mem_read_func (sz nmemb : Nat) (track : Track) : Option (List Nat × Track × Nat) :=
  if track.offset + bytesToRead sz nmemb track > track.data.length then none
  else some
    ((track.data.drop track.offset).take (bytesToRead sz nmemb track),
     { track with offset := (track.offset + bytesToRead sz nmemb track) % SZMOD },
     bytesToRead sz nmemb track / sz)

/-- The three whence values mem_seek_func recognizes: SEEK_SET, SEEK_CUR and
SEEK_END; any other value falls into the default branch, which fails without
touching the cursor.  These are the spec modes Absolute, RelativeToCurrent
and RelativeToEnd. -/
inductive Whence
  | seekSet
  | seekCur
  | seekEnd
deriving DecidableEq

/-- Conversion of a C integer value to the 32-bit size_t of the 3DS target:
reduction mod 2^32. -/
def toSizeT (x : Int) : Int := x % 4294967296

/-- mem_seek_func from player.c on the 32-bit target.  The offset argument
is a signed 64-bit ogg_int64_t; the cursor field is a 32-bit size_t.
SEEK_SET compares and stores (size_t)offset, i.e. offset truncated mod
2^32.  SEEK_CUR converts the 32-bit cursor to int64 (int64 represents every
uint32), compares the signed 64-bit sum against the size — so a negative
candidate passes the check — and stores the sum truncated mod 2^32.
SEEK_END checks offset > 0, then compares (size_t)(-offset), the negation
truncated mod 2^32, and stores size + offset truncated mod 2^32.  Returns
the C return value (0 on success, -1 on failure) with the updated track.
The definition uses exact Int arithmetic for the int64 operations; the two
int64 undefined behaviors the source can reach (overflow of
track->offset + offset for offset within 2^32 of INT64_MAX, and -offset at
INT64_MIN) lie outside the argument ranges the theorems below quantify
over. -/
def mem_seek_func (track : Track) (offset : Int) (whence : Whence) : Int × Track :=
  match whence with
  | .seekSet =>
      if toSizeT offset > (track.size : Int) then (-1, track)
      else (0, { track with offset := (toSizeT offset).toNat })
  | .seekCur =>
      if (track.offset : Int) + offset > (track.size : Int) then (-1, track)
      else (0, { track with offset := (toSizeT ((track.offset : Int) + offset)).toNat })
  | .seekEnd =>
      if offset > 0 ∨ toSizeT (-offset) > (track.size : Int) then (-1, track)
      else (0, { track with offset := (toSizeT ((track.size : Int) + offset)).toNat })

/-- mem_tell_func from player.c: returns the cursor offset as a C long. -/
def mem_tell_func (track : Track) : Int := (track.offset : Int)

/-- libctru wave-buffer status value NDSP_WBUF_QUEUED. -/
def NDSP_WBUF_QUEUED : Nat := 1

/-- libctru wave-buffer status value NDSP_WBUF_DONE. -/
def NDSP_WBUF_DONE : Nat := 3

/-- The static ndspWaveBuf of player.c: whether data_vaddr points at the PCM
staging buffer (audio_buffer), the sample count, the looping flag, and the
status word. -/
structure WaveBuf where
  dataIsAudioBuffer : Bool
  nsamples : Nat
  looping : Bool
  status : Nat
deriving DecidableEq

/-- Externally visible calls the player code makes, recorded as a trace:
a decode (ov_read), a decoder open (ov_open_callbacks), a decoder teardown
(ov_clear), a channel reset (ndspChnReset) and a wave-buffer submission
(ndspChnWaveBufAdd). -/
inductive Ev
  | ovRead
  | ovOpen
  | ovClear
  | chnReset
  | wavebufAdd
deriving DecidableEq

/-- External libctru primitive ndspChnWaveBufAdd: queues the wave buffer on
the channel and marks it queued; callers record the submission itself as an
Ev.wavebufAdd trace event. -/
def ndspChnWaveBufAdd (wb : WaveBuf) : WaveBuf :=
  { wb with status := NDSP_WBUF_QUEUED }

/-- The mutable file-scope state of the two translation units.  player.c owns
tracks, vf, playing, audio_initialized, audio_buffer (tracked as an
allocation flag), current_track and waveBuf.  main.c declares its own
file-local `static bool playing` (and its own `vf`), distinct objects from
player.c's because both have internal linkage; main.c's flag is the separate
field mainPlaying, and no code in either file ever assigns it.  The decoder
handle vf is opaque: some () while a decoder is bound, none after ov_clear. -/
structure PlayerState where
  tracks : Fin 3 → Track
  vf : Option Unit
  playing : Bool
  audio_initialized : Bool
  audioBufferAllocated : Bool
  current_track : Int
  waveBuf : WaveBuf
  mainPlaying : Bool

/-- The static initializers of both translation units: zeroed tracks, no
decoder bound, playing = false in both files, current_track = -1, zeroed
wave buffer, nothing allocated. -/
def initialState : PlayerState :=
  { tracks := fun _ => { data := [], size := 0, offset := 0 }
    vf := none
    playing := false
    audio_initialized := false
    audioBufferAllocated := false
    current_track := -1
    waveBuf := { dataIsAudioBuffer := false, nsamples := 0, looping := false, status := 0 }
    mainPlaying := false }

/-- playerIsPlaying from main.c: returns main.c's own file-local `playing`
variable (internal linkage), not the `playing` flag player.c mutates. -/
def playerIsPlaying (s : PlayerState) : Bool := s.mainPlaying

/-- playerInit from player.c, parametrized by the three embedded OGG assets
(track1_ogg .. track3_ogg with their lengths): populates the registry,
allocates and zeroes the staging buffer, configures the channel and installs
the callback; a no-op when already initialized. -/
def playerInit (a1 a2 a3 : List Nat) (s : PlayerState) : PlayerState :=
  if s.audio_initialized then s
  else
    { s with
      tracks := fun i =>
        match i with
        | ⟨0, _⟩ => { data := a1, size := a1.length, offset := 0 }
        | ⟨1, _⟩ => { data := a2, size := a2.length, offset := 0 }
        | ⟨_, _⟩ => { data := a3, size := a3.length, offset := 0 }
      audioBufferAllocated := true
      audio_initialized := true }

/-- playerStop from player.c: returns immediately when not playing; otherwise
ov_clear the decoder, reset the NDSP channel and lower the playing flag. -/
def playerStop (s : PlayerState) : PlayerState × List Ev :=
  if s.playing then
    ({ s with vf := none, playing := false }, [Ev.ovClear, Ev.chnReset])
  else (s, [])

/-- Aggregate effect on the cursor of the reads ov_open_callbacks issues
through mem_read_func while parsing headers: the external library pulls
`consumed` bytes in bounded chunks, each in-bounds call advancing the
cursor by its clamped amount, so in total the cursor advances by
min consumed (size - offset). -/
def advanceCursor (consumed : Nat) (t : Track) : Track :=
  { t with offset := t.offset + min consumed (t.size - t.offset) }

/-- playerPlay from player.c.  The external ov_open_callbacks call is
parametrized by openOk (whether it accepts the asset) and consumed (how many
bytes its header parsing pulls through mem_read_func before it returns).
The code performs no range check on index: for an index outside [0, 3) the
write `tracks[index].offset = 0` is an out-of-bounds access on the
fixed-size array, modelled as none (undefined behavior).  Inside the range,
the code first stops any current playback, then sets current_track, resets
the selected track's cursor, and opens the decoder; on open failure it
returns right there, and on success it zeroes the wave-buffer descriptor,
points it at the staging buffer, marks it NDSP_WBUF_DONE and submits it —
without decoding anything — and raises the playing flag. -/
def playerPlay (openOk : Bool) (consumed : Nat) (index : Int) (s : PlayerState) :
    Option (PlayerState × List Ev) :=
  let r1 := if s.playing then playerStop s else (s, [])
  let s2 := { r1.1 with current_track := index }
  if h : 0 ≤ index ∧ index < 3 then
    let i : Fin 3 := ⟨index.toNat, by omega⟩
    let s3 := { s2 with
      tracks := Function.update s2.tracks i { s2.tracks i with offset := 0 } }
    let s4 := { s3 with
      tracks := Function.update s3.tracks i (advanceCursor consumed (s3.tracks i)) }
    if openOk then
      let wb := ndspChnWaveBufAdd
        { dataIsAudioBuffer := true, nsamples := 0, looping := false,
          status := NDSP_WBUF_DONE }
      some ({ s4 with vf := some (), waveBuf := wb, playing := true },
            r1.2 ++ [Ev.ovOpen, Ev.wavebufAdd])
    else some (s4, r1.2 ++ [Ev.ovOpen])
  else none

/-- myNdspCallback from player.c, parametrized by the value the external
ov_read call returns for this invocation.  The guard returns when not
playing or when the wave buffer has not been consumed.  Past the guard the
code calls ov_read on vf: when no decoder is bound (vf cleared), that
dereferences freed decoder state — modelled as none (undefined behavior).
A non-positive read result lowers the playing flag and submits nothing;
otherwise the wave-buffer descriptor is zeroed, refilled and resubmitted. -/
def myNdspCallback (bytesRead : Int) (s : PlayerState) : Option (PlayerState × List Ev) :=
  if s.playing = false ∨ s.waveBuf.status ≠ NDSP_WBUF_DONE then some (s, [])
  else
    match s.vf with
    | none => none
    | some _ =>
      if bytesRead ≤ 0 then some ({ s with playing := false }, [Ev.ovRead])
      else
        let wb := ndspChnWaveBufAdd
          { dataIsAudioBuffer := true, nsamples := bytesRead.toNat / 2 / 2,
            looping := false, status := 0 }
        some ({ s with waveBuf := wb }, [Ev.ovRead, Ev.wavebufAdd])

/-- Iterates myNdspCallback over a list of successive ov_read results,
accumulating the trace; none as soon as any invocation hits undefined
behavior. -/
def runCallbacks (brs : List Int) (s : PlayerState) : Option (PlayerState × List Ev) :=
  match brs with
  | [] => some (s, [])
  | br :: rest =>
      match myNdspCallback br s with
      | none => none
      | some (s1, evs) =>
          match runCallbacks rest s1 with
          | none => none
          | some (s2, evs2) => some (s2, evs ++ evs2)

/-- playerExit from player.c: stop if playing, then reset the channel, free
the staging buffer and mark uninitialized; a further call is a no-op. -/
def playerExit (s : PlayerState) : PlayerState × List Ev :=
  let r1 := if s.playing then playerStop s else (s, [])
  if r1.1.audio_initialized then
    ({ r1.1 with audioBufferAllocated := false, audio_initialized := false },
     r1.2 ++ [Ev.chnReset])
  else r1

/-- The candidate absolute offset of a seek request as the spec words it:
the target itself for Absolute, current offset plus target for
RelativeToCurrent, track length plus target for RelativeToEnd. -/
def seekCandidate (t : Track) (off : Int) : Whence → Int
  | .seekSet => off
  | .seekCur => (t.offset : Int) + off
  | .seekEnd => (t.size : Int) + off

/-- The exact acceptance condition of mem_seek_func's bounds checks, read
off the source per mode: SEEK_SET accepts when the request truncated mod
2^32 is at most the size, SEEK_CUR when the signed 64-bit candidate is at
most the size (no lower bound), SEEK_END when the request is non-positive
and its negation truncated mod 2^32 is at most the size. -/
def seekAccepted (t : Track) (off : Int) : Whence → Prop
  | .seekSet => toSizeT off ≤ (t.size : Int)
  | .seekCur => (t.offset : Int) + off ≤ (t.size : Int)
  | .seekEnd => off ≤ 0 ∧ toSizeT (-off) ≤ (t.size : Int)

/-- Two registry entries hold the same asset when their data and size fields
agree (the offset field is the in-place cursor). -/
def sameAsset (t u : Track) : Prop := t.data = u.data ∧ t.size = u.size

/-- The state in the middle of playerStop's body, after its first statement
ov_clear(&vf) has executed and before `playing = false` runs: the state a
concurrently firing NDSP callback can observe, since the code contains no
lock, atomic or queue between the callback and the control path. -/
def stopAfterOvClear (s : PlayerState) : PlayerState := { s with vf := none }

/-- A concrete mid-playback state: initialized, a decoder bound, playing,
with the submitted wave buffer already marked consumed (NDSP_WBUF_DONE) by
the hardware — the situation in which the next NDSP frame callback refills. -/
def samplePlaying : PlayerState :=
  { tracks := fun _ => { data := [1, 2, 3, 4], size := 4, offset := 4 }
    vf := some ()
    playing := true
    audio_initialized := true
    audioBufferAllocated := true
    current_track := 0
    waveBuf := { dataIsAudioBuffer := true, nsamples := 512, looping := false, status := 3 }
    mainPlaying := false }

/-- A concrete freshly initialized, stopped state: the result of playerInit
on the static initial state with three small well-formed assets. -/
def sampleInited : PlayerState := playerInit [7, 7, 7] [8] [9] initialState

/-- C3 counterexample: on the 32-bit target the seek invariant fails.  With
a four-byte track and the cursor at 1, seek(-2, SEEK_CUR) has candidate
absolute offset -1, outside [0, 4], yet mem_seek_func succeeds — the check
compares the signed 64-bit sum against the upper bound only — and commits
the candidate truncated mod 2^32, leaving the cursor at 4294967295, beyond
the track. -/
theorem c3_seek_counterexample :
    mem_seek_func { data := [5, 6, 7, 8], size := 4, offset := 1 } (-2) .seekCur
      = (0, { data := [5, 6, 7, 8], size := 4, offset := 4294967295 })
    ∧ ¬ (0 ≤ seekCandidate { data := [5, 6, 7, 8], size := 4, offset := 1 } (-2) .seekCur) :=
  ⟨by decide, by decide⟩

/-- C3 amended: on the 32-bit target a seek succeeds exactly when the
mode's own mixed-width check passes (seekAccepted): Absolute and
RelativeToEnd compare the request truncated mod 2^32, and RelativeToCurrent
compares the signed 64-bit candidate against the upper bound only, so
negative or wrapped candidates can be accepted.  Every candidate in [0, L]
is accepted (the direction of the spec invariant that survives), a
successful seek stores the candidate truncated mod 2^32, and a failed seek
leaves the offset observed by mem_tell_func — indeed the whole track —
unchanged, because every bounds check runs before any mutation.  The
hypotheses are the cursor invariant offset ≤ size, the unsigned-int bound
size < 2^32, and the request range in which the source avoids int64
signed-overflow undefined behavior. -/
theorem c3_seek_mixed_width (t : Track) (off : Int) (w : Whence)
    (hcur : t.offset ≤ t.size) (hsize : t.size < 4294967296)
    (hlo : -9223372036854775807 ≤ off) (hhi : off < 9223372032559808512) :
    ((mem_seek_func t off w).1 = 0 ↔ seekAccepted t off w)
    ∧ (0 ≤ seekCandidate t off w ∧ seekCandidate t off w ≤ (t.size : Int) →
        (mem_seek_func t off w).1 = 0)
    ∧ ((mem_seek_func t off w).1 = 0 →
        ((mem_seek_func t off w).2.offset : Int) = toSizeT (seekCandidate t off w))
    ∧ ((mem_seek_func t off w).1 ≠ 0 →
        mem_tell_func (mem_seek_func t off w).2 = mem_tell_func t
        ∧ (mem_seek_func t off w).2 = t) := by
  rcases w with _ | _ | _ <;>
    simp only [mem_seek_func, toSizeT, seekAccepted, seekCandidate, mem_tell_func] <;>
    split_ifs with hc <;>
    refine ⟨by omega, by omega, by intro h0; dsimp only; omega,
      by intro hne; first | exact absurd rfl hne | exact ⟨rfl, rfl⟩⟩

/-- Closed instance of c3_seek_mixed_width at the counterexample input: the
RelativeToCurrent seek by -2 from offset 1 is accepted even though its
candidate -1 is negative, and the committed offset is the candidate
truncated mod 2^32. -/
theorem c3_seek_mixed_width_witness :
    ((mem_seek_func { data := [5, 6, 7, 8], size := 4, offset := 1 } (-2) .seekCur).1 = 0 ↔
      seekAccepted { data := [5, 6, 7, 8], size := 4, offset := 1 } (-2) .seekCur)
    ∧ ((mem_seek_func { data := [5, 6, 7, 8], size := 4, offset := 1 } (-2) .seekCur).1 = 0 →
        ((mem_seek_func { data := [5, 6, 7, 8], size := 4, offset := 1 } (-2) .seekCur).2.offset : Int)
          = toSizeT (seekCandidate { data := [5, 6, 7, 8], size := 4, offset := 1 } (-2) .seekCur)) := by
  have h := c3_seek_mixed_width { data := [5, 6, 7, 8], size := 4, offset := 1 } (-2) .seekCur
    (by decide) (by decide) (by decide) (by decide)
  exact ⟨h.1, h.2.2.1⟩

/-- C4 counterexample: on the 32-bit target read is not total and does not
clamp every request.  At size 100 and offset 50, a request of 2^32 - 10
bytes makes the size_t sum offset + bytes_to_read wrap to 40, the size
check passes, the clamp is skipped, and the memcpy reads 4294967286 bytes
from a 100-byte asset — out of bounds, undefined behavior (none) — where
the claim demands a clean copy of min(max_bytes, 100 - 50) = 50 bytes and
no failure. -/
theorem c4_read_counterexample :
    mem_read_func 1 4294967286
      { data := List.replicate 100 7, size := 100, offset := 50 } = none
    ∧ min 4294967286 (100 - 50) = 50 :=
  ⟨rfl, rfl⟩

/-- C4 amended: whenever the request does not overflow the 32-bit size_t
sum (offset + max_bytes < 2^32, satisfied by every request the decoding
library actually issues), mem_read_func with item size 1 — so the request
and the return value are both byte counts, matching the spec signature
read(buffer, max_bytes) — copies exactly min(max_bytes, size - offset)
bytes starting at the cursor, advances the cursor by exactly that amount,
returns that count and leaves the asset untouched; at end-of-data
(offset = size) it returns 0 leaving the whole track unchanged.  For larger
requests the wrapped comparison skips the clamp and the copy runs out of
bounds (c4_read_counterexample), so the claim's "never fails" holds only
below the overflow bound. -/
theorem c4_read_exact (t : Track) (max_bytes : Nat)
    (hlen : t.data.length = t.size) (hcur : t.offset ≤ t.size)
    (hsize : t.size < 4294967296) (hreq : t.offset + max_bytes < 4294967296) :
    mem_read_func 1 max_bytes t =
      some ((t.data.drop t.offset).take (min max_bytes (t.size - t.offset)),
            { t with offset := t.offset + min max_bytes (t.size - t.offset) },
            min max_bytes (t.size - t.offset))
    ∧ (t.offset = t.size → mem_read_func 1 max_bytes t = some ([], t, 0)) := by
  have hb : bytesToRead 1 max_bytes t = min max_bytes (t.size - t.offset) := by
    simp only [bytesToRead, SZMOD, one_mul]
    split_ifs with h1 <;> omega
  have hmod : (t.offset + min max_bytes (t.size - t.offset)) % SZMOD
      = t.offset + min max_bytes (t.size - t.offset) := by
    simp only [SZMOD]
    omega
  constructor
  · simp only [mem_read_func, hb, hmod, Nat.div_one]
    rw [if_neg (by omega : ¬ t.offset + min max_bytes (t.size - t.offset) > t.data.length)]
  · intro he
    have h0 : min max_bytes (t.size - t.offset) = 0 := by omega
    have hoff : t.offset % SZMOD = t.offset := by
      simp only [SZMOD]
      omega
    simp only [mem_read_func, hb, h0, Nat.add_zero, Nat.div_one, hoff, List.take_zero]
    rw [if_neg (by omega : ¬ t.offset > t.data.length)]

/-- Closed instance of c4_read_exact: reading up to 10 bytes of a five-byte
track from offset 2 copies the last three bytes, returns 3 and moves the
cursor to 5. -/
theorem c4_read_exact_witness :
    mem_read_func 1 10 { data := [1, 2, 3, 4, 5], size := 5, offset := 2 } =
      some ([3, 4, 5], { data := [1, 2, 3, 4, 5], size := 5, offset := 5 }, 3) :=
  (c4_read_exact { data := [1, 2, 3, 4, 5], size := 5, offset := 2 } 10
    rfl (by decide) (by decide) (by decide)).1

/-- Helper: the callback is a complete no-op whenever the playing flag is
down — it returns through the guard, submitting nothing. -/
theorem callback_when_stopped (s : PlayerState) (h : s.playing = false) (br : Int) :
    myNdspCallback br s = some (s, []) := by
  simp [myNdspCallback, h]

/-- Helper: iterating the callback from a stopped state is a no-op with an
empty trace, whatever the decoder would have returned. -/
theorem runCallbacks_when_stopped (brs : List Int) (s : PlayerState)
    (h : s.playing = false) : runCallbacks brs s = some (s, []) := by
  induction brs with
  | nil => rfl
  | cons br rest ih => simp [runCallbacks, callback_when_stopped s h br, ih]

/-- Helper: playerStop leaves the playing flag down whatever the input. -/
theorem playerStop_fst_playing (s : PlayerState) : (playerStop s).1.playing = false := by
  by_cases h : s.playing <;> simp [playerStop, h]

/-- Helper: playerStop never touches the track registry. -/
theorem playerStop_fst_tracks (s : PlayerState) : (playerStop s).1.tracks = s.tracks := by
  by_cases h : s.playing <;> simp [playerStop, h]

/-- Helper: the conditional stop at the top of playerPlay is exactly
playerStop, since playerStop carries the same guard. -/
theorem play_guard (s : PlayerState) :
    (if s.playing then playerStop s else (s, [])) = playerStop s := by
  by_cases h : s.playing <;> simp [playerStop, h]

/-- C5: in a refill where the decoder yields no bytes (ov_read returns a
non-positive value) while playing with the wave buffer consumed and a
decoder bound, the callback lowers the playing flag and resubmits nothing
(its trace is the bare decode, with no Ev.wavebufAdd); and from the
resulting stopped state, any number of subsequent callback invocations
leave the state untouched and submit nothing — the transition to Stopped
happens exactly once. -/
theorem c5_stop_exactly_once (s : PlayerState) (br : Int)
    (hp : s.playing = true) (hd : s.waveBuf.status = NDSP_WBUF_DONE)
    (hv : s.vf = some ()) (hbr : br ≤ 0) :
    myNdspCallback br s = some ({ s with playing := false }, [Ev.ovRead])
    ∧ Ev.wavebufAdd ∉ [Ev.ovRead]
    ∧ ∀ brs : List Int,
        runCallbacks brs { s with playing := false } =
          some ({ s with playing := false }, []) := by
  refine ⟨?_, by decide, fun brs => runCallbacks_when_stopped brs _ rfl⟩
  simp [myNdspCallback, hp, hd, hv, hbr]

/-- Closed instance of c5_stop_exactly_once at the concrete mid-playback
state and a zero-byte decode result. -/
theorem c5_stop_exactly_once_witness :
    myNdspCallback 0 samplePlaying =
      some ({ samplePlaying with playing := false }, [Ev.ovRead])
    ∧ runCallbacks [10, -3, 0] { samplePlaying with playing := false } =
        some ({ samplePlaying with playing := false }, []) :=
  ⟨(c5_stop_exactly_once samplePlaying 0 rfl rfl rfl (by decide)).1,
   (c5_stop_exactly_once samplePlaying 0 rfl rfl rfl (by decide)).2.2 [10, -3, 0]⟩

/-- C7: playerStop is idempotent.  When playback is already stopped it
returns immediately, changing nothing and making no external call (no
ov_clear, no channel reset); and a second stop after any stop is such a
no-op, so stop composed with stop equals a single stop. -/
theorem c7_stop_idempotent :
    (∀ s : PlayerState, s.playing = false → playerStop s = (s, []))
    ∧ (∀ s : PlayerState, playerStop (playerStop s).1 = ((playerStop s).1, [])) := by
  constructor
  · intro s h
    simp [playerStop, h]
  · intro s
    by_cases h : s.playing <;> simp [playerStop, h]

/-- Closed instance of c7_stop_idempotent: stop on the stopped initial state
is a no-op, and a double stop from the concrete playing state equals the
single stop. -/
theorem c7_stop_idempotent_witness :
    playerStop initialState = (initialState, [])
    ∧ playerStop (playerStop samplePlaying).1 = ((playerStop samplePlaying).1, []) :=
  ⟨c7_stop_idempotent.1 initialState rfl, c7_stop_idempotent.2 samplePlaying⟩

/-- Helper: normal form of playerPlay at an in-range index when
ov_open_callbacks rejects the asset: any current playback is stopped, the
current track becomes the requested index, the selected entry's cursor is
reset to 0 and then advanced by the header bytes the failed open consumed,
and the function returns right after the open, with the playing flag down. -/
theorem playerPlay_open_fail (consumed : Nat) (i : Fin 3) (s : PlayerState) :
    playerPlay false consumed (i.val : Int) s =
      some ({ (playerStop s).1 with
                current_track := (i.val : Int),
                tracks := Function.update (playerStop s).1.tracks i
                  (advanceCursor consumed
                    { (playerStop s).1.tracks i with offset := 0 }) },
            (playerStop s).2 ++ [Ev.ovOpen]) := by
  have hcond : 0 ≤ (i.val : Int) ∧ (i.val : Int) < 3 :=
    ⟨Int.natCast_nonneg _, by exact_mod_cast i.isLt⟩
  simp only [playerPlay, play_guard, dif_pos hcond, Int.toNat_natCast, Fin.eta,
    Function.update_same, Function.update_idem, Bool.false_eq_true, if_false]

/-- Helper: normal form of playerPlay at an in-range index when
ov_open_callbacks accepts the asset: as in the failure case up to the open,
then the decoder is bound, the zeroed wave-buffer descriptor is pointed at
the staging buffer, marked done and submitted (the submission marks it
queued), and the playing flag is raised — with no decode anywhere. -/
theorem playerPlay_open_ok (consumed : Nat) (i : Fin 3) (s : PlayerState) :
    playerPlay true consumed (i.val : Int) s =
      some ({ (playerStop s).1 with
                current_track := (i.val : Int),
                tracks := Function.update (playerStop s).1.tracks i
                  (advanceCursor consumed
                    { (playerStop s).1.tracks i with offset := 0 }),
                vf := some (),
                waveBuf := { dataIsAudioBuffer := true, nsamples := 0,
                             looping := false, status := NDSP_WBUF_QUEUED },
                playing := true },
            (playerStop s).2 ++ [Ev.ovOpen, Ev.wavebufAdd]) := by
  have hcond : 0 ≤ (i.val : Int) ∧ (i.val : Int) < 3 :=
    ⟨Int.natCast_nonneg _, by exact_mod_cast i.isLt⟩
  simp only [playerPlay, play_guard, dif_pos hcond, Int.toNat_natCast, Fin.eta,
    Function.update_same, Function.update_idem, if_true, ndspChnWaveBufAdd]

/-- Helper: after playerPlay's cursor reset and the open's header reads, the
updated registry function still holds the same asset (data and size) at
every index; only the in-place cursor moved. -/
theorem update_after_open_sameAsset (consumed : Nat) (j : Fin 3) (f : Fin 3 → Track)
    (i : Fin 3) :
    sameAsset
      ((Function.update f j (advanceCursor consumed { f j with offset := 0 })) i)
      (f i) := by
  by_cases hij : i = j
  · subst hij
    simp [Function.update_same, sameAsset, advanceCursor]
  · simp [Function.update_noteq hij, sameAsset]

/-- C10: a playerPlay whose decoder open fails is not atomic.  For every
in-range index and every pre-state, the failed call still returns with the
playing flag down (status Stopped), but current_track has been overwritten
with the requested index and the selected entry's cursor has been reset to 0
(and then advanced only by the `consumed` header bytes the failed open read,
so it ends at min consumed size — exactly 0 when the open read nothing);
the pre-call selection state is not restored. -/
theorem c10_failed_play_not_atomic (i : Fin 3) (consumed : Nat) (s : PlayerState) :
    ∃ s2 evs, playerPlay false consumed (i.val : Int) s = some (s2, evs)
    ∧ s2.playing = false
    ∧ s2.current_track = (i.val : Int)
    ∧ (s2.tracks i).offset = min consumed ((s.tracks i).size) := by
  refine ⟨_, _, playerPlay_open_fail consumed i s, playerStop_fst_playing s, rfl, ?_⟩
  show ((Function.update (playerStop s).1.tracks i
      (advanceCursor consumed { (playerStop s).1.tracks i with offset := 0 })) i).offset
    = min consumed ((s.tracks i).size)
  rw [Function.update_same, playerStop_fst_tracks]
  show 0 + min consumed ((s.tracks i).size - 0) = min consumed ((s.tracks i).size)
  omega

/-- C6 counterexample: at a concrete initialized stopped state with a
well-formed asset, a successful playerPlay returns with a trace containing
no decode call at all (no Ev.ovRead — only the open and the submission) and
with the submitted wave-buffer descriptor holding 0 samples: no chunk of
PCM is decoded into the staging buffer before play returns. -/
theorem c6_counterexample :
    (playerPlay true 0 0 sampleInited).map (fun p => (p.2, p.1.waveBuf.nsamples)) =
      some ([Ev.ovOpen, Ev.wavebufAdd], 0)
    ∧ Ev.ovRead ∉ [Ev.ovOpen, Ev.wavebufAdd] := ⟨rfl, by decide⟩

/-- C6 amended: playerPlay on a successful open does submit one wave-buffer
(channel Idle to Submitted) and raises the playing flag before returning,
but it performs no synchronous decode-and-submit cycle: the trace has a
submission and no decode, and the submitted descriptor points at the (still
zeroed) staging buffer with a sample count of 0; the first real decode is
left to the first drained-notification callback, triggered by the
descriptor having been pre-marked NDSP_WBUF_DONE. -/
theorem c6_play_submits_without_decode (i : Fin 3) (consumed : Nat) (s : PlayerState) :
    ∃ s2 evs, playerPlay true consumed (i.val : Int) s = some (s2, evs)
    ∧ s2.playing = true
    ∧ s2.vf = some ()
    ∧ Ev.wavebufAdd ∈ evs
    ∧ Ev.ovRead ∉ evs
    ∧ s2.waveBuf = { dataIsAudioBuffer := true, nsamples := 0, looping := false,
                     status := NDSP_WBUF_QUEUED } := by
  refine ⟨_, _, playerPlay_open_ok consumed i s, rfl, rfl, ?_, ?_, rfl⟩
  · simp
  · by_cases h : s.playing <;> simp [playerStop, h]

/-- C2 (as the code actually behaves): playerPlay performs no range check at
all.  For every index outside [0, 3) the write tracks[index].offset = 0 is
an out-of-bounds store into the fixed three-element array — undefined
behavior, modelled as none; there is no OutOfRange indication (the function
returns void) and the previous playback state is not preserved by any
checked path. -/
theorem c2_no_range_check (idx : Int) (openOk : Bool) (consumed : Nat)
    (s : PlayerState) (h : idx < 0 ∨ 3 ≤ idx) :
    playerPlay openOk consumed idx s = none := by
  have hn : ¬(0 ≤ idx ∧ idx < 3) := by omega
  simp [playerPlay, dif_neg hn]

/-- Closed instance of c2_no_range_check at indices 3 and -1. -/
theorem c2_no_range_check_witness :
    playerPlay true 0 3 initialState = none
    ∧ playerPlay false 2 (-1) samplePlaying = none :=
  ⟨c2_no_range_check 3 true 0 initialState (by decide),
   c2_no_range_check (-1) false 2 samplePlaying (by decide)⟩

/-- C1 (as the code actually behaves): playerIsPlaying lives in main.c and
returns main.c's own file-local `playing` static, a different object from
the flag player.c raises.  No code in either file ever assigns main.c's
flag, so after a successful playerPlay the player.c flag is true while
playerIsPlaying still returns false; and playerIsPlaying is invariant under
every control operation. -/
theorem c1_is_playing_reads_stale_flag :
    ((playerPlay true 0 0 sampleInited).map
        (fun p => (p.1.playing, playerIsPlaying p.1)) = some (true, false))
    ∧ (∀ s, playerIsPlaying (playerStop s).1 = playerIsPlaying s)
    ∧ (∀ openOk consumed idx s, playerIsPlaying
          (((playerPlay openOk consumed idx s).getD (s, [])).1) = playerIsPlaying s) := by
  refine ⟨rfl, ?_, ?_⟩
  · intro s
    by_cases h : s.playing <;> simp [playerStop, h, playerIsPlaying]
  · intro openOk consumed idx s
    by_cases h : 0 ≤ idx ∧ idx < 3
    · cases openOk <;> by_cases hp : s.playing <;>
        simp [playerPlay, dif_pos h, play_guard, playerStop, hp, playerIsPlaying]
    · simp [playerPlay, dif_neg h, playerIsPlaying]

/-- C9 (as the code actually behaves): there is no mutual exclusion between
playerStop and the NDSP callback — the code has no lock, atomic or queue.
In the interleaving where the callback fires after playerStop has executed
ov_clear(&vf) but before it lowers the playing flag, the callback still
sees playing = true with the wave buffer consumed, passes its guard, and
calls ov_read on the just-cleared decoder: undefined behavior (none), not a
no-op and not exclusion. -/
theorem c9_callback_races_stop :
    (stopAfterOvClear samplePlaying).playing = true
    ∧ myNdspCallback 4096 (stopAfterOvClear samplePlaying) = none := ⟨rfl, rfl⟩

/-- C8 counterexample: registry entries are not read-only after
construction.  From the freshly initialized state, a successful playerPlay
whose open pulls two header bytes through the read callback leaves the
entry for track 0 with cursor offset 2, where initialization had set 0: the
per-track record is mutated after initialization (the cursor lives inside
the registry entry, and playerPlay itself resets it). -/
theorem c8_registry_entry_mutates :
    (playerPlay true 2 0 sampleInited).map (fun p => (p.1.tracks 0).offset) = some 2
    ∧ (sampleInited.tracks 0).offset = 0 := ⟨rfl, rfl⟩

/-- C8 amended: the asset part of every registry entry — the data bytes and
the stored size — never changes after initialization under any core
operation (read, seek, play, stop, exit, the drained callback); only the
in-place cursor field moves. -/
theorem c8_assets_immutable :
    (∀ sz nmemb t, sameAsset (((mem_read_func sz nmemb t).getD ([], t, 0)).2.1) t)
    ∧ (∀ t off w, sameAsset (mem_seek_func t off w).2 t)
    ∧ (∀ s i, sameAsset ((playerStop s).1.tracks i) (s.tracks i))
    ∧ (∀ s i, sameAsset ((playerExit s).1.tracks i) (s.tracks i))
    ∧ (∀ br s i, sameAsset ((((myNdspCallback br s).getD (s, [])).1).tracks i) (s.tracks i))
    ∧ (∀ openOk consumed idx s i,
        sameAsset ((((playerPlay openOk consumed idx s).getD (s, [])).1).tracks i)
          (s.tracks i)) := by
  refine ⟨?_, ?_, ?_, ?_, ?_, ?_⟩
  · intro sz nmemb t
    by_cases h : t.offset + bytesToRead sz nmemb t > t.data.length
    · simp [mem_read_func, h, sameAsset]
    · simp [mem_read_func, h, sameAsset]
  · intro t off w
    rcases w with _ | _ | _ <;> simp only [mem_seek_func] <;> split_ifs <;> exact ⟨rfl, rfl⟩
  · intro s i
    rw [playerStop_fst_tracks]
    exact ⟨rfl, rfl⟩
  · intro s i
    simp only [playerExit, play_guard]
    split_ifs <;> rw [playerStop_fst_tracks] <;> exact ⟨rfl, rfl⟩
  · intro br s i
    by_cases hg : s.playing = false ∨ s.waveBuf.status ≠ NDSP_WBUF_DONE
    · simp [myNdspCallback, hg, sameAsset]
    · rcases hv : s.vf with _ | u
      · simp [myNdspCallback, hg, hv, sameAsset]
      · by_cases hbr : br ≤ 0 <;> simp [myNdspCallback, hg, hv, hbr, sameAsset]
  · intro openOk consumed idx s i
    by_cases h : 0 ≤ idx ∧ idx < 3
    · obtain ⟨h0, h3⟩ := h
      have hidx : idx = (((⟨idx.toNat, by omega⟩ : Fin 3)).val : Int) := by
        simp
        omega
      rw [hidx]
      cases openOk
      · rw [playerPlay_open_fail]
        simp only [Option.getD_some]
        rw [playerStop_fst_tracks]
        exact update_after_open_sameAsset consumed _ s.tracks i
      · rw [playerPlay_open_ok]
        simp only [Option.getD_some]
        rw [playerStop_fst_tracks]
        exact update_after_open_sameAsset consumed _ s.tracks i
    · simp [playerPlay, dif_neg h, sameAsset]

end XMMP
